import Mathlib

/-!
Verification of the gofer-cli service core: the lifecycle contract
(`Start`/`Wait`), the polling price `Cache` (`pkg/prices/cache.go`) and the
`HTTPAgent` query server (`pkg/agent/agent.go`), embedded shallowly.

External collaborators (`provider.Provider`, `provider.PriceHook`,
`marshal.Marshaller`, JSON decoding, `http.Server`) appear as function
parameters; the embedded code is only what the repository itself defines.
Go errors are `Option String` / `Except String`; Go's `nil` context is
`Option Ctx` with `none` for nil.
-/

namespace Gofer

/-- Modelled from the spec: `provider.Pair` (external to this repository) is an
ordered pair of asset symbols; a pair is "empty" if both symbols are unset. -/
structure Pair where
  Base : String
  Quote : String
deriving DecidableEq, Repr

/-- Modelled from the spec: `Pair.Empty()` holds when both symbols are unset. -/
def Pair.Empty (p : Pair) : Bool :=
  p.Base = "" && p.Quote = ""

/-- Go `time.Time`, reduced to the instant it denotes (wall seconds and
nanoseconds); location is presentation only and unused by the claims. -/
structure GoTime where
  sec : Int
  nsec : Int
deriving DecidableEq, Repr

/-- `provider.Price` (the price tick consumed by the core): numeric price /
bid / ask / volume, a timestamp, a parameter mapping, optional nested
constituent ticks and an error marker. Only the fields the embedded code
inspects are given structure; numbers stay abstract as `Int`-scaled values
because no embedded code computes on them. -/
structure Price where
  Typ : String
  Pair : Pair
  Price : Int
  Bid : Int
  Ask : Int
  Volume24h : Int
  Time : GoTime
  Parameters : List (String × String)
  Error : String
deriving DecidableEq, Repr

/-- `median.Price` as built (and discarded) by `Cache.update`:
`&median.Price{Wat: pair.Base + pair.Quote, Age: tick.Time}` followed by
`SetFloat64Price(tick.Price)`. -/
structure MedianPrice where
  Wat : String
  Age : GoTime
  Val : Int
deriving DecidableEq, Repr

/-- A Go map from `Pair` to `Price` as an association list (first binding
wins on lookup, matching map semantics since keys are unique in Go maps). -/
def PriceMap := List (Pair × Price)

instance : DecidableEq PriceMap := inferInstanceAs (DecidableEq (List (Pair × Price)))

instance : Repr PriceMap := inferInstanceAs (Repr (List (Pair × Price)))

/-- `prices[p.Pair]` map lookup. -/
def PriceMap.lookup (m : PriceMap) (p : Pair) : Option Price :=
  List.lookup p m

/-! ## Lifecycle state (`pkg/prices/cache.go`, `pkg/agent/agent.go`)

Both components hold a stored context (`nil` until the first successful
`Start`) and a completion channel. Background work is counted by
`goroutines` (the number of `go` statements executed). -/

/-- State of `prices.Cache`: stored context, the pair list, the never-written
`prices` snapshot map, whether `interval.Start` has been called, and the
number of spawned goroutines. The wait channel's identity is fixed per
instance; its event trace is modelled separately. -/
structure CacheState (Ctx : Type) where
  ctx : Option Ctx
  pairs : List Pair
  prices : PriceMap
  tickerStarted : Bool
  goroutines : Nat
deriving DecidableEq, Repr

/-- State of `agent.HTTPAgent`: stored context, bind address, whether the
routes have been registered (`initServer`) and the goroutine count. -/
structure AgentState (Ctx : Type) where
  ctx : Option Ctx
  address : String
  serverInit : Bool
  goroutines : Nat
deriving DecidableEq, Repr

/-- `Cache.Start` (cache.go:81-94): reject a second start, reject a nil
context, otherwise store the context, start the ticker and spawn the
broadcaster and the cancel watcher. Returns the Go error and the state
after the call. -/
def Cache.Start {Ctx : Type} (g : CacheState Ctx) (ctx : Option Ctx) :
    Option String × CacheState Ctx :=
  if g.ctx.isSome then
    (some "service can be started only once", g)
  else if ctx.isNone then
    (some "context must not be nil", g)
  else
    (none, { g with ctx := ctx, tickerStarted := true,
                    goroutines := g.goroutines + 2 })

/-- `HTTPAgent.Start` (agent.go:109-133): reject a second start, reject a nil
context, otherwise store the context, register routes (`initServer`, which
always returns nil) and spawn the server goroutine and the cancel watcher. -/
def HTTPAgent.Start {Ctx : Type} (s : AgentState Ctx) (ctx : Option Ctx) :
    Option String × AgentState Ctx :=
  if s.ctx.isSome then
    (some "service can be started only once", s)
  else if ctx.isNone then
    (some "context must not be nil", s)
  else
    (none, { s with ctx := ctx, serverInit := true,
                    goroutines := s.goroutines + 2 })

/-! ## Cache update and broadcaster loop (`pkg/prices/cache.go`) -/

/-- `Cache.update` (cache.go:103-118): fetch the pair's tick from the
provider; a provider error or a tick with a non-empty `Error` marker is
returned as the error. On success a `median.Price` is constructed locally
and discarded — no field of the cache (in particular not `g.prices`) is
assigned. Returns the Go error and the state after the call. -/
def Cache.update {Ctx : Type} (provPrice : Pair → Except String Price)
    (g : CacheState Ctx) (pair : Pair) : Option String × CacheState Ctx :=
  match provPrice pair with
  | .error e => (some e, g)
  | .ok tick =>
    if tick.Error ≠ "" then
      (some tick.Error, g)
    else
      let _price : MedianPrice :=
        { Wat := pair.Base ++ pair.Quote, Age := tick.Time, Val := tick.Price }
      (none, g)

/-- One log line emitted by the broadcaster loop: a warning when a pair's
update failed, an informational entry when it succeeded. -/
inductive LogEntry where
  | warn (pair : Pair) (err : String)
  | info (pair : Pair)
deriving DecidableEq, Repr

/-- The pair a broadcaster log line is about. -/
def LogEntry.pairOf : LogEntry → Pair
  | .warn p _ => p
  | .info p => p

/-- The body of the broadcaster loop's `for _, pair := range g.pairs`
(cache.go:127-138): a failed `update` logs a warning and `continue`s, a
successful one logs an info line; the cache state threads through. -/
def Cache.broadcastStep {Ctx : Type} (provPrice : Pair → Except String Price)
    (acc : CacheState Ctx × List LogEntry) (pair : Pair) :
    CacheState Ctx × List LogEntry :=
  match Cache.update provPrice acc.1 pair with
  | (some e, g2) => (g2, acc.2 ++ [LogEntry.warn pair e])
  | (none, g2) => (g2, acc.2 ++ [LogEntry.info pair])

/-- One polling cycle of `Cache.broadcasterRoutine` (cache.go:125-138): on a
tick event, iterate the configured pairs in order. Returns the state after
the cycle and the log, in emission order. -/
def Cache.broadcastCycle {Ctx : Type} (provPrice : Pair → Except String Price)
    (g : CacheState Ctx) : CacheState Ctx × List LogEntry :=
  g.pairs.foldl (Cache.broadcastStep provPrice) (g, [])

/-- The log line a cycle at state `g` emits for `pair`, as determined by
`Cache.update`'s outcome: a warning carrying the error when the provider
call fails or the tick carries a non-empty error marker, an info line
otherwise. -/
def Cache.cycleEntry {Ctx : Type} (provPrice : Pair → Except String Price)
    (g : CacheState Ctx) (pair : Pair) : LogEntry :=
  match (Cache.update provPrice g pair).1 with
  | some e => LogEntry.warn pair e
  | none => LogEntry.info pair

/-- `Cache.broadcasterRoutine` (cache.go:120-141) run until the context is
cancelled after `ticks` tick events: every tick event executes one full
cycle; the loop exits only on cancellation. Returns the final state and the
per-cycle logs. -/
def Cache.broadcasterRoutine {Ctx : Type}
    (provPrice : Pair → Except String Price) (g : CacheState Ctx)
    (ticks : Nat) : CacheState Ctx × List (List LogEntry) :=
  match ticks with
  | 0 => (g, [])
  | n + 1 =>
    let c := Cache.broadcastCycle provPrice g
    let rest := Cache.broadcasterRoutine provPrice c.1 n
    (rest.1, c.2 :: rest.2)

/-! ## HTTP handlers (`pkg/agent/agent.go`)

A handler's interaction with the outside world is captured by an
`HandlerTrace`: the HTTP response it produces (status defaults to 200 when a
body is written without `WriteHeader`, as `io.WriteString` does) and whether
the provider, the hook and the marshalling step were reached. JSON decoding
of the request body is external (`encoding/json`), so a handler takes the
decode outcome as a parameter. -/

/-- Go `http.StatusUnsupportedMediaType`. -/
def StatusUnsupportedMediaType : Nat := 415

/-- Go `http.StatusBadRequest`. -/
def StatusBadRequest : Nat := 400

/-- Go `http.StatusOK`, the implicit status of a response whose body is
written without an explicit `WriteHeader` call. -/
def StatusOK : Nat := 200

/-- `pricesRequest` (agent.go:54-56): the decoded multi-pair request body.
`none` models a Go nil slice, `some []` an empty one; the handler treats
both alike (`p.Pairs == nil || len(p.Pairs) == 0`). -/
structure pricesRequest where
  Pairs : Option (List Pair)
deriving DecidableEq, Repr

/-- `priceRequest` (agent.go:58-60): the decoded single-pair request body. -/
structure priceRequest where
  Pair : Pair
deriving DecidableEq, Repr

/-- An HTTP response: status code and body. -/
structure HttpResponse where
  status : Nat
  body : String
deriving DecidableEq, Repr

/-- What a handler did with one request: the response, and whether the
provider's `Prices`, the hook's `Check` and the marshalling step ran. -/
structure HandlerTrace where
  resp : HttpResponse
  providerCalled : Bool
  hookCalled : Bool
  marshalCalled : Bool
deriving DecidableEq, Repr

/-- The body `http.Error` writes for a rejected Content-Type
(agent.go:158-161 and 204-207); `http.Error` appends a newline. -/
def contentTypeErrMsg : String := "Content-Type header is not application/json"

/-- Body written when the pair set is empty or a lookup comes back empty. -/
def emptyJsonBody : String := "\x7b\x7d"

/-- Error envelope for a failed provider call (agent.go:178 and 224). -/
def getPricesErrBody : String := "\x7b\"error\":\"failed to get prices\"\x7d"

/-- Error envelope for a failed hook check (agent.go:184 and 230). -/
def checkPricesErrBody : String := "\x7b\"error\":\"failed to check prices\"\x7d"

/-- Error envelope for a failed marshaller flush (agent.go:242). -/
def marshalJsonErrBody : String := "\x7b\"error\":\"failed to marshal json\"\x7d"

/-- `HTTPAgent.handlePrice` (agent.go:157-201). Parameters stand for the
external collaborators: `providerPrices` is `priceProvider.Prices`,
`hookCheck` is `priceHook.Check` (`none` = nil error), and `marshalJson` is
`json.Marshal ∘ jsonPriceFromGoferPrice` (the serialized record, abstract
because no claim constrains the serialized form). `contentType` is the
request's Content-Type header and `decoded` the outcome of decoding the
body into a `priceRequest`. -/
def HTTPAgent.handlePrice
    (providerPrices : List Pair → Except String PriceMap)
    (hookCheck : PriceMap → Option String)
    (marshalJson : Price → Except String String)
    (contentType : String)
    (decoded : Except String priceRequest) : HandlerTrace :=
  if contentType ≠ "application/json" then
    ⟨⟨StatusUnsupportedMediaType, contentTypeErrMsg ++ "\n"⟩, false, false, false⟩
  else
    match decoded with
    | .error e => ⟨⟨StatusBadRequest, e ++ "\n"⟩, false, false, false⟩
    | .ok p =>
      if p.Pair.Empty then
        ⟨⟨StatusOK, emptyJsonBody⟩, false, false, false⟩
      else
        match providerPrices [p.Pair] with
        | .error _ => ⟨⟨StatusOK, getPricesErrBody⟩, true, false, false⟩
        | .ok prices =>
          match hookCheck prices with
          | some _ => ⟨⟨StatusOK, checkPricesErrBody⟩, true, true, false⟩
          | none =>
            match PriceMap.lookup prices p.Pair with
            | none => ⟨⟨StatusOK, emptyJsonBody⟩, true, true, false⟩
            | some price =>
              match marshalJson price with
              | .error _ => ⟨⟨StatusOK, emptyJsonBody⟩, true, true, true⟩
              | .ok b => ⟨⟨StatusOK, b⟩, true, true, true⟩

/-- `HTTPAgent.handlePrices` (agent.go:203-246). `marshWrite` is
`marshaller.Write(w, p)` (bytes appended on success, error otherwise),
`marshWriteErr` the bytes `marshaller.Write(w, mErr)` appends for an error
record (its own error is discarded), `marshFlush` the `marshaller.Flush()`
outcome (bytes flushed on success). The provider's map is iterated in its
list order. -/
def HTTPAgent.handlePrices
    (providerPrices : List Pair → Except String PriceMap)
    (hookCheck : PriceMap → Option String)
    (marshWrite : Price → Except String String)
    (marshWriteErr : String → String)
    (marshFlush : Except String String)
    (contentType : String)
    (decoded : Except String pricesRequest) : HandlerTrace :=
  if contentType ≠ "application/json" then
    ⟨⟨StatusUnsupportedMediaType, contentTypeErrMsg ++ "\n"⟩, false, false, false⟩
  else
    match decoded with
    | .error e => ⟨⟨StatusBadRequest, e ++ "\n"⟩, false, false, false⟩
    | .ok p =>
      if p.Pairs = none ∨ p.Pairs.getD [] = [] then
        ⟨⟨StatusOK, emptyJsonBody⟩, false, false, false⟩
      else
        match providerPrices (p.Pairs.getD []) with
        | .error _ => ⟨⟨StatusOK, getPricesErrBody⟩, true, false, false⟩
        | .ok prices =>
          match hookCheck prices with
          | some _ => ⟨⟨StatusOK, checkPricesErrBody⟩, true, true, false⟩
          | none =>
            let written := prices.foldl
              (fun acc pp =>
                match marshWrite pp.2 with
                | .ok b => acc ++ b
                | .error me => acc ++ marshWriteErr me) ""
            match marshFlush with
            | .error _ => ⟨⟨StatusOK, written ++ marshalJsonErrBody⟩, true, true, true⟩
            | .ok fb => ⟨⟨StatusOK, written ++ fb⟩, true, true, true⟩

/-! ## Completion channels

Each component owns an unbuffered `chan error` (`waitCh`), returned by
`Wait()`. The operations a run performs on it form a trace; a waiter
receiving from the channel sees the first sent value, or Go's zero value
`nil` (here `none`) once the channel is closed. -/

/-- One operation on a Go channel: a send of a value, or `close`. -/
inductive ChanOp (α : Type) where
  | send (v : α)
  | close
deriving DecidableEq, Repr

/-- The values actually sent over the channel during a trace. -/
def sentValues {α : Type} (ops : List (ChanOp α)) : List α :=
  ops.filterMap fun op =>
    match op with
    | .send v => some v
    | .close => none

/-- Whether the trace's final operation closes the channel. -/
def closesAtEnd {α : Type} (ops : List (ChanOp α)) : Bool :=
  match ops.getLast? with
  | some .close => true
  | _ => false

/-- The first value a blocked receiver observes: the first sent value, or
`none` (Go's nil, the zero value of `error`) if the channel is closed
first; `none` at the outer level means the receiver blocks forever. -/
def waitObserved {α : Type} (ops : List (ChanOp (Option α))) : Option (Option α) :=
  match ops with
  | [] => none
  | ChanOp.send v :: _ => some v
  | ChanOp.close :: _ => some none

/-- `HTTPAgent.contextCancelHandler` (agent.go:150-155): after the context
is cancelled, send the result of `server.Close()` (`closeResult`, `none`
for a nil error) on `waitCh`, then — by the deferred call — close it. -/
def HTTPAgent.contextCancelHandler (closeResult : Option String) :
    List (ChanOp (Option String)) :=
  [ChanOp.send closeResult, ChanOp.close]

/-- The `ListenAndServe` goroutine (agent.go:124-130) performs no operation
on `waitCh`; it only logs a crash that is not `http.ErrServerClosed`. -/
def HTTPAgent.serverRoutineWaitChOps : List (ChanOp (Option String)) := []

/-- Every operation agent.go performs on the agent's `waitCh` in a run
whose context gets cancelled: the server goroutine contributes nothing and
the cancel watcher sends the close result and then closes. -/
def HTTPAgent.waitChOps (closeResult : Option String) :
    List (ChanOp (Option String)) :=
  HTTPAgent.serverRoutineWaitChOps ++ HTTPAgent.contextCancelHandler closeResult

/-- `Cache.contextCancelHandler` (cache.go:143-147): after the context is
cancelled, close `waitCh`; nothing is ever sent. -/
def Cache.contextCancelHandler : List (ChanOp (Option String)) :=
  [ChanOp.close]

/-- The broadcaster routine's operations on `waitCh` over `ticks` tick
events: its loop body (cache.go:125-138) contains no operation on `waitCh`,
so each tick contributes the empty trace. -/
def Cache.broadcasterWaitChOps : Nat → List (ChanOp (Option String))
  | 0 => []
  | n + 1 => [] ++ Cache.broadcasterWaitChOps n

/-- Every operation cache.go performs on the cache's `waitCh` in a run in
which the context is cancelled after `ticks` tick events. -/
def Cache.waitChOps (ticks : Nat) : List (ChanOp (Option String)) :=
  Cache.broadcasterWaitChOps ticks ++ Cache.contextCancelHandler

/-! ## Helper lemmas -/

/-- `Cache.update` never modifies the cache state: in particular the
`prices` snapshot map is left untouched on success and failure alike. -/
theorem Cache.update_snd {Ctx : Type} (prov : Pair → Except String Price)
    (g : CacheState Ctx) (pair : Pair) :
    (Cache.update prov g pair).2 = g := by
  rcases hp : prov pair with e | tick
  · simp [Cache.update, hp]
  · simp only [Cache.update, hp]
    split <;> rfl

/-- One loop-body step at an accumulator whose state component is `g`
produces state `g` again and appends exactly the entry `cycleEntry` picks
for the pair. -/
theorem Cache.broadcastStep_eq {Ctx : Type} (prov : Pair → Except String Price)
    (g : CacheState Ctx) (acc : List LogEntry) (pair : Pair) :
    Cache.broadcastStep prov (g, acc) pair =
      (g, acc ++ [Cache.cycleEntry prov g pair]) := by
  unfold Cache.broadcastStep Cache.cycleEntry
  rcases hu : Cache.update prov g pair with ⟨res, g2⟩
  have hg2 : g2 = g := by
    have h := Cache.update_snd prov g pair
    rw [hu] at h
    exact h
  subst hg2
  cases res <;> simp

/-- Folding the loop body over any pair list from state `g` keeps the state
and appends one `cycleEntry` per pair, in order. -/
theorem Cache.broadcastStep_foldl {Ctx : Type} (prov : Pair → Except String Price)
    (l : List Pair) (g : CacheState Ctx) (acc : List LogEntry) :
    l.foldl (Cache.broadcastStep prov) (g, acc) =
      (g, acc ++ l.map (Cache.cycleEntry prov g)) := by
  induction l generalizing acc with
  | nil => simp
  | cons p t ih =>
    rw [List.foldl_cons, Cache.broadcastStep_eq, ih]
    simp

/-- A full cycle leaves the state unchanged and logs exactly one entry per
configured pair, in the configured order. -/
theorem Cache.broadcastCycle_eq {Ctx : Type} (prov : Pair → Except String Price)
    (g : CacheState Ctx) :
    Cache.broadcastCycle prov g = (g, g.pairs.map (Cache.cycleEntry prov g)) := by
  unfold Cache.broadcastCycle
  rw [Cache.broadcastStep_foldl]
  simp

/-- The entry a cycle emits for a pair is about that pair. -/
theorem Cache.cycleEntry_pairOf {Ctx : Type} (prov : Pair → Except String Price)
    (g : CacheState Ctx) (p : Pair) :
    (Cache.cycleEntry prov g p).pairOf = p := by
  unfold Cache.cycleEntry
  cases (Cache.update prov g p).1 <;> rfl

/-- Running the broadcaster for `n` tick events executes `n` identical full
cycles and never exits early. -/
theorem Cache.broadcasterRoutine_eq {Ctx : Type} (prov : Pair → Except String Price)
    (g : CacheState Ctx) (n : Nat) :
    Cache.broadcasterRoutine prov g n =
      (g, List.replicate n (g.pairs.map (Cache.cycleEntry prov g))) := by
  induction n with
  | zero => rfl
  | succ n ih =>
    simp [Cache.broadcasterRoutine, Cache.broadcastCycle_eq, ih, List.replicate_succ]

/-- The broadcaster routine performs no operation on `waitCh`, however many
ticks elapse. -/
theorem Cache.broadcasterWaitChOps_eq (n : Nat) :
    Cache.broadcasterWaitChOps n = [] := by
  induction n with
  | zero => rfl
  | succ n ih => simp [Cache.broadcasterWaitChOps, ih]

/-! ## Claims -/

/-- C1: for both lifecycle components (polling `Cache` and `HTTPAgent`), if
a call to `Start` with a non-nil context succeeded, every subsequent call
to `Start` (with any context) returns the "service can be started only
once" error and returns the component's state unchanged — stored context,
goroutine count and all other fields — so no new background work is
spawned. -/
theorem C1_second_start_rejected {Ctx : Type}
    (g : CacheState Ctx) (s : AgentState Ctx) (ctxC ctxA ctxC2 ctxA2 : Option Ctx)
    (hg : (Cache.Start g ctxC).1 = none)
    (hs : (HTTPAgent.Start s ctxA).1 = none) :
    Cache.Start (Cache.Start g ctxC).2 ctxC2 =
      (some "service can be started only once", (Cache.Start g ctxC).2) ∧
    HTTPAgent.Start (HTTPAgent.Start s ctxA).2 ctxA2 =
      (some "service can be started only once", (HTTPAgent.Start s ctxA).2) := by
  constructor
  · cases hgctx : g.ctx with
    | some c0 => simp [Cache.Start, hgctx] at hg
    | none =>
      cases ctxC with
      | none => simp [Cache.Start, hgctx] at hg
      | some c => simp [Cache.Start, hgctx]
  · cases hsctx : s.ctx with
    | some c0 => simp [HTTPAgent.Start, hsctx] at hs
    | none =>
      cases ctxA with
      | none => simp [HTTPAgent.Start, hsctx] at hs
      | some c => simp [HTTPAgent.Start, hsctx]

/-- A fresh, never-started cache instance used as a concrete witness. -/
def wCache0 : CacheState Unit :=
  ⟨none, [⟨"BTC", "USD"⟩], [], false, 0⟩

/-- A fresh, never-started agent instance used as a concrete witness. -/
def wAgent0 : AgentState Unit :=
  ⟨none, "127.0.0.1:8080", false, 0⟩

/-- Witness for C1 at a concrete fresh cache and agent. -/
theorem C1_second_start_rejected_witness :
    (Cache.Start wCache0 (some ())).1 = none ∧
    (HTTPAgent.Start wAgent0 (some ())).1 = none ∧
    Cache.Start (Cache.Start wCache0 (some ())).2 (some ()) =
      (some "service can be started only once", (Cache.Start wCache0 (some ())).2) ∧
    HTTPAgent.Start (HTTPAgent.Start wAgent0 (some ())).2 (some ()) =
      (some "service can be started only once", (HTTPAgent.Start wAgent0 (some ())).2) := by
  refine ⟨by decide, by decide, ?_, ?_⟩
  · exact (C1_second_start_rejected wCache0 wAgent0 (some ()) (some ()) (some ())
      (some ()) (by decide) (by decide)).1
  · exact (C1_second_start_rejected wCache0 wAgent0 (some ()) (some ()) (some ())
      (some ()) (by decide) (by decide)).2

/-- C9: for both components, a first `Start` call with a nil context
returns the "context must not be nil" error and leaves the state unchanged
(the started marker stays unset), so a subsequent `Start` with a non-nil
context still succeeds. -/
theorem C9_nil_context_start {Ctx : Type}
    (g : CacheState Ctx) (s : AgentState Ctx) (c : Ctx)
    (hg : g.ctx = none) (hs : s.ctx = none) :
    Cache.Start g none = (some "context must not be nil", g) ∧
    HTTPAgent.Start s none = (some "context must not be nil", s) ∧
    (Cache.Start g (some c)).1 = none ∧
    (HTTPAgent.Start s (some c)).1 = none := by
  refine ⟨?_, ?_, ?_, ?_⟩ <;> simp [Cache.Start, HTTPAgent.Start, hg, hs]

/-- Witness for C9 at a concrete fresh cache and agent. -/
theorem C9_nil_context_start_witness :
    wCache0.ctx = none ∧ wAgent0.ctx = none ∧
    (Cache.Start wCache0 none = (some "context must not be nil", wCache0) ∧
     HTTPAgent.Start wAgent0 none = (some "context must not be nil", wAgent0) ∧
     (Cache.Start wCache0 (some ())).1 = none ∧
     (HTTPAgent.Start wAgent0 (some ())).1 = none) :=
  ⟨rfl, rfl, C9_nil_context_start wCache0 wAgent0 () rfl rfl⟩

/-- A provider that answers every pair with a clean tick (no provider
error, empty tick-error marker). -/
def C2_provider : Pair → Except String Price := fun pair =>
  Except.ok
    { Typ := "aggregator", Pair := pair, Price := 50000, Bid := 49990,
      Ask := 50010, Volume24h := 1000, Time := ⟨1700000000, 0⟩,
      Parameters := [], Error := "" }

/-- The pair fetched in the C2 scenario. -/
def C2_pair : Pair := ⟨"BTC", "USD"⟩

/-- A started cache configured for `C2_pair` whose snapshot map is empty
(as it is after `New`, which never initializes `prices`). -/
def C2_cache : CacheState Unit := ⟨some (), [C2_pair], [], true, 2⟩

/-- C2: the claim that a successful fetch stores the tick in the cache's
pair-to-tick snapshot fails on the code: `Cache.update` never assigns
`g.prices` (the fetched tick is converted to a `median.Price` and
discarded), so after a successful fetch — provider returned no error and
the tick's error marker is empty — the snapshot still has no entry for the
pair. First conjunct: `update` leaves the whole state (hence the map)
unchanged for every provider, state and pair; remaining conjuncts evaluate
the failing input: the fetch succeeds yet the lookup still misses. -/
theorem C2_snapshot_never_updated :
    (∀ (Ctx : Type) (prov : Pair → Except String Price) (g : CacheState Ctx)
        (pair : Pair), (Cache.update prov g pair).2 = g) ∧
    (Cache.update C2_provider C2_cache C2_pair).1 = none ∧
    PriceMap.lookup ((Cache.update C2_provider C2_cache C2_pair).2).prices C2_pair =
      none := by
  refine ⟨fun Ctx prov g pair => Cache.update_snd prov g pair, by decide, by decide⟩

/-- C3: in every polling cycle, the broadcaster logs exactly one entry per
configured pair in the configured order — `cycleEntry` picks a warning
exactly when that pair's `update` failed (provider error or non-empty tick
error marker) and an info line otherwise — so a failing pair is skipped
with a warning while every remaining pair is still processed, and no pair
is retried within the cycle; moreover over `n` tick events the loop runs
all `n` cycles and does not exit. -/
theorem C3_cycle_isolates_failures {Ctx : Type}
    (prov : Pair → Except String Price) (g : CacheState Ctx) (n : Nat) :
    (Cache.broadcastCycle prov g).2 = g.pairs.map (Cache.cycleEntry prov g) ∧
    ((Cache.broadcastCycle prov g).2).map LogEntry.pairOf = g.pairs ∧
    (Cache.broadcasterRoutine prov g n).2 =
      List.replicate n ((Cache.broadcastCycle prov g).2) := by
  refine ⟨?_, ?_, ?_⟩
  · rw [Cache.broadcastCycle_eq]
  · rw [Cache.broadcastCycle_eq]
    simp [List.map_map, Function.comp_def, Cache.cycleEntry_pairOf]
  · rw [Cache.broadcasterRoutine_eq, Cache.broadcastCycle_eq]

/-- Witness provider that fails every `Prices` call. -/
def wProvFail : List Pair → Except String PriceMap :=
  fun _ => Except.error "no price models"

/-- Witness provider that succeeds with an empty result mapping. -/
def wProvEmpty : List Pair → Except String PriceMap :=
  fun _ => Except.ok []

/-- Witness hook whose `Check` always passes. -/
def wHookOk : PriceMap → Option String := fun _ => none

/-- Witness hook whose `Check` always fails. -/
def wHookFail : PriceMap → Option String := fun _ => some "price out of range"

/-- Witness single-record marshalling step. -/
def wMarshalJson : Price → Except String String := fun _ => Except.ok emptyJsonBody

/-- Witness `marshaller.Write` that appends nothing and succeeds. -/
def wMarshWrite : Price → Except String String := fun _ => Except.ok ""

/-- Witness error-record write. -/
def wMarshWriteErr : String → String := fun _ => ""

/-- Witness `marshaller.Flush` that succeeds. -/
def wMarshFlushOk : Except String String := Except.ok ""

/-- Witness pair. -/
def wPair : Pair := ⟨"ETH", "USD"⟩

/-- C4: for every request to either query endpoint whose Content-Type is
not exactly "application/json", the handler responds 415 with the
rejection reason as the body (`http.Error` appends a newline) and neither
the provider nor any later stage is reached. -/
theorem C4_content_type_rejected
    (prov : List Pair → Except String PriceMap) (hook : PriceMap → Option String)
    (mj : Price → Except String String) (mw : Price → Except String String)
    (mwe : String → String) (mf : Except String String) (ct : String)
    (dP : Except String priceRequest) (dPs : Except String pricesRequest)
    (h : ct ≠ "application/json") :
    HTTPAgent.handlePrice prov hook mj ct dP =
      ⟨⟨StatusUnsupportedMediaType, contentTypeErrMsg ++ "\n"⟩, false, false, false⟩ ∧
    HTTPAgent.handlePrices prov hook mw mwe mf ct dPs =
      ⟨⟨StatusUnsupportedMediaType, contentTypeErrMsg ++ "\n"⟩, false, false, false⟩ := by
  constructor <;> simp [HTTPAgent.handlePrice, HTTPAgent.handlePrices, h]

/-- Witness for C4: a `text/plain` request to both endpoints. -/
theorem C4_content_type_rejected_witness :
    ("text/plain" ≠ "application/json") ∧
    HTTPAgent.handlePrice wProvEmpty wHookOk wMarshalJson "text/plain"
        (Except.ok ⟨wPair⟩) =
      ⟨⟨StatusUnsupportedMediaType, contentTypeErrMsg ++ "\n"⟩, false, false, false⟩ ∧
    HTTPAgent.handlePrices wProvEmpty wHookOk wMarshWrite wMarshWriteErr
        wMarshFlushOk "text/plain" (Except.ok ⟨some [wPair]⟩) =
      ⟨⟨StatusUnsupportedMediaType, contentTypeErrMsg ++ "\n"⟩, false, false, false⟩ := by
  have h := C4_content_type_rejected wProvEmpty wHookOk wMarshalJson wMarshWrite
    wMarshWriteErr wMarshFlushOk "text/plain" (Except.ok ⟨wPair⟩)
    (Except.ok ⟨some [wPair]⟩) (by decide)
  exact ⟨by decide, h.1, h.2⟩

/-- C5: past the Content-Type and decode pre-checks with a non-empty pair
set, a failed provider call yields status 200 with exactly the
failed-to-get-prices envelope, and a failed hook check yields status 200
with exactly the failed-to-check-prices envelope, on both endpoints; the
stated responses are 200, never an error status. -/
theorem C5_error_envelopes
    (prov : List Pair → Except String PriceMap) (hook : PriceMap → Option String)
    (mj : Price → Except String String) (mw : Price → Except String String)
    (mwe : String → String) (mf : Except String String)
    (pair : Pair) (pairs : List Pair) (e he : String) (m : PriceMap)
    (hpair : pair.Empty = false) (hpairs : pairs ≠ []) :
    (prov [pair] = Except.error e →
      HTTPAgent.handlePrice prov hook mj "application/json" (Except.ok ⟨pair⟩) =
        ⟨⟨StatusOK, getPricesErrBody⟩, true, false, false⟩) ∧
    (prov [pair] = Except.ok m → hook m = some he →
      HTTPAgent.handlePrice prov hook mj "application/json" (Except.ok ⟨pair⟩) =
        ⟨⟨StatusOK, checkPricesErrBody⟩, true, true, false⟩) ∧
    (prov pairs = Except.error e →
      HTTPAgent.handlePrices prov hook mw mwe mf "application/json"
          (Except.ok ⟨some pairs⟩) =
        ⟨⟨StatusOK, getPricesErrBody⟩, true, false, false⟩) ∧
    (prov pairs = Except.ok m → hook m = some he →
      HTTPAgent.handlePrices prov hook mw mwe mf "application/json"
          (Except.ok ⟨some pairs⟩) =
        ⟨⟨StatusOK, checkPricesErrBody⟩, true, true, false⟩) := by
  refine ⟨fun hp => ?_, fun hp hh => ?_, fun hp => ?_, fun hp hh => ?_⟩
  · simp [HTTPAgent.handlePrice, hpair, hp]
  · simp [HTTPAgent.handlePrice, hpair, hp, hh]
  · simp [HTTPAgent.handlePrices, hpairs, hp]
  · simp [HTTPAgent.handlePrices, hpairs, hp, hh]

/-- Witness for C5: a failing provider and a failing hook at a concrete
request on both endpoints. -/
theorem C5_error_envelopes_witness :
    wPair.Empty = false ∧ ([wPair] : List Pair) ≠ [] ∧
    HTTPAgent.handlePrice wProvFail wHookOk wMarshalJson "application/json"
        (Except.ok ⟨wPair⟩) =
      ⟨⟨StatusOK, getPricesErrBody⟩, true, false, false⟩ ∧
    HTTPAgent.handlePrice wProvEmpty wHookFail wMarshalJson "application/json"
        (Except.ok ⟨wPair⟩) =
      ⟨⟨StatusOK, checkPricesErrBody⟩, true, true, false⟩ ∧
    HTTPAgent.handlePrices wProvFail wHookOk wMarshWrite wMarshWriteErr
        wMarshFlushOk "application/json" (Except.ok ⟨some [wPair]⟩) =
      ⟨⟨StatusOK, getPricesErrBody⟩, true, false, false⟩ ∧
    HTTPAgent.handlePrices wProvEmpty wHookFail wMarshWrite wMarshWriteErr
        wMarshFlushOk "application/json" (Except.ok ⟨some [wPair]⟩) =
      ⟨⟨StatusOK, checkPricesErrBody⟩, true, true, false⟩ := by
  refine ⟨by decide, by decide, ?_, ?_, ?_, ?_⟩
  · exact (C5_error_envelopes wProvFail wHookOk wMarshalJson wMarshWrite
      wMarshWriteErr wMarshFlushOk wPair [wPair] "no price models" "x" []
      (by decide) (by decide)).1 rfl
  · exact (C5_error_envelopes wProvEmpty wHookFail wMarshalJson wMarshWrite
      wMarshWriteErr wMarshFlushOk wPair [wPair] "x" "price out of range" []
      (by decide) (by decide)).2.1 rfl rfl
  · exact (C5_error_envelopes wProvFail wHookOk wMarshalJson wMarshWrite
      wMarshWriteErr wMarshFlushOk wPair [wPair] "no price models" "x" []
      (by decide) (by decide)).2.2.1 rfl
  · exact (C5_error_envelopes wProvEmpty wHookFail wMarshalJson wMarshWrite
      wMarshWriteErr wMarshFlushOk wPair [wPair] "x" "price out of range" []
      (by decide) (by decide)).2.2.2 rfl rfl

/-- C6: with valid Content-Type and well-formed JSON, an empty request —
nil pair set, empty pair set, or the empty single pair — yields status 200
with body exactly the empty JSON object, and neither provider, hook nor
marshaller is reached. -/
theorem C6_empty_request
    (prov : List Pair → Except String PriceMap) (hook : PriceMap → Option String)
    (mj : Price → Except String String) (mw : Price → Except String String)
    (mwe : String → String) (mf : Except String String)
    (p : Pair) (hp : p.Empty = true) :
    HTTPAgent.handlePrice prov hook mj "application/json" (Except.ok ⟨p⟩) =
      ⟨⟨StatusOK, emptyJsonBody⟩, false, false, false⟩ ∧
    HTTPAgent.handlePrices prov hook mw mwe mf "application/json"
        (Except.ok ⟨none⟩) =
      ⟨⟨StatusOK, emptyJsonBody⟩, false, false, false⟩ ∧
    HTTPAgent.handlePrices prov hook mw mwe mf "application/json"
        (Except.ok ⟨some []⟩) =
      ⟨⟨StatusOK, emptyJsonBody⟩, false, false, false⟩ := by
  refine ⟨?_, ?_, ?_⟩ <;> simp [HTTPAgent.handlePrice, HTTPAgent.handlePrices, hp]

/-- Witness for C6 at the empty pair and concrete collaborators. -/
theorem C6_empty_request_witness :
    (Pair.Empty ⟨"", ""⟩ = true) ∧
    HTTPAgent.handlePrice wProvEmpty wHookOk wMarshalJson "application/json"
        (Except.ok ⟨⟨"", ""⟩⟩) =
      ⟨⟨StatusOK, emptyJsonBody⟩, false, false, false⟩ ∧
    HTTPAgent.handlePrices wProvEmpty wHookOk wMarshWrite wMarshWriteErr
        wMarshFlushOk "application/json" (Except.ok ⟨none⟩) =
      ⟨⟨StatusOK, emptyJsonBody⟩, false, false, false⟩ ∧
    HTTPAgent.handlePrices wProvEmpty wHookOk wMarshWrite wMarshWriteErr
        wMarshFlushOk "application/json" (Except.ok ⟨some []⟩) =
      ⟨⟨StatusOK, emptyJsonBody⟩, false, false, false⟩ :=
  ⟨by decide, C6_empty_request wProvEmpty wHookOk wMarshalJson wMarshWrite
    wMarshWriteErr wMarshFlushOk ⟨"", ""⟩ (by decide)⟩

/-- C7: on the single-pair endpoint, when provider and hook succeed but the
result mapping has no entry for the requested pair, the response is status
200 with body exactly the empty JSON object (the marshalling step is never
reached), not an error status or envelope. -/
theorem C7_absent_pair_empty_object
    (prov : List Pair → Except String PriceMap) (hook : PriceMap → Option String)
    (mj : Price → Except String String) (pair : Pair) (m : PriceMap)
    (hpair : pair.Empty = false) (hprov : prov [pair] = Except.ok m)
    (hhook : hook m = none) (habsent : PriceMap.lookup m pair = none) :
    HTTPAgent.handlePrice prov hook mj "application/json" (Except.ok ⟨pair⟩) =
      ⟨⟨StatusOK, emptyJsonBody⟩, true, true, false⟩ := by
  simp [HTTPAgent.handlePrice, hpair, hprov, hhook, habsent]

/-- Witness for C7: a provider succeeding with an empty mapping. -/
theorem C7_absent_pair_empty_object_witness :
    wPair.Empty = false ∧ wProvEmpty [wPair] = Except.ok [] ∧
    wHookOk [] = none ∧ PriceMap.lookup [] wPair = none ∧
    HTTPAgent.handlePrice wProvEmpty wHookOk wMarshalJson "application/json"
        (Except.ok ⟨wPair⟩) =
      ⟨⟨StatusOK, emptyJsonBody⟩, true, true, false⟩ :=
  ⟨by decide, rfl, rfl, rfl,
    C7_absent_pair_empty_object wProvEmpty wHookOk wMarshalJson wPair []
      (by decide) rfl rfl rfl⟩

/-- C8: after the context is cancelled, the trace of operations each
component performs on its wait channel delivers exactly one terminal value
and then closes the channel: the agent's watcher sends the `server.Close()`
result (nil for a clean close, non-nil for a close error) and closes; the
cache's trace, whatever the number `n` of elapsed polling ticks, is a bare
close, which a waiter observes as the nil terminal value. -/
theorem C8_wait_yields_once_then_closes (closeResult : Option String) (n : Nat) :
    HTTPAgent.waitChOps closeResult = [ChanOp.send closeResult, ChanOp.close] ∧
    sentValues (HTTPAgent.waitChOps closeResult) = [closeResult] ∧
    closesAtEnd (HTTPAgent.waitChOps closeResult) = true ∧
    waitObserved (HTTPAgent.waitChOps closeResult) = some closeResult ∧
    Cache.waitChOps n = [ChanOp.close] ∧
    waitObserved (Cache.waitChOps n) = some none ∧
    closesAtEnd (Cache.waitChOps n) = true := by
  have hc : Cache.waitChOps n = [ChanOp.close] := by
    unfold Cache.waitChOps
    rw [Cache.broadcasterWaitChOps_eq]
    rfl
  refine ⟨rfl, rfl, rfl, rfl, hc, ?_, ?_⟩ <;> rw [hc] <;> rfl

/-- C10: the cache's wait channel is only ever closed, never sent a value,
regardless of how many polling ticks elapsed, so every waiter observes the
nil terminal signal — the cache can never report a non-nil terminal error
through `Wait`. -/
theorem C10_cache_wait_only_closed (n : Nat) :
    sentValues (Cache.waitChOps n) = [] ∧
    closesAtEnd (Cache.waitChOps n) = true ∧
    waitObserved (Cache.waitChOps n) = some none := by
  have hc : Cache.waitChOps n = [ChanOp.close] := by
    unfold Cache.waitChOps
    rw [Cache.broadcasterWaitChOps_eq]
    rfl
  rw [hc]
  exact ⟨rfl, rfl, rfl⟩

end Gofer
